import Mathlib

/-!
Verification of the OpenPNM repository's CI workflow definitions and example
notebooks against their natural-language specification.

The repository contains two GitHub Actions workflows (the `Examples` test
workflow and the `Deploy to PyPI` release workflow) and Jupyter notebooks
(capillary pressure, thermal conduction, Fickian diffusion).  This file embeds
the workflow configurations, the relevant expression semantics of GitHub
Actions (`contains`, `startsWith`, step `if:` gating), the bash fragments they
run (`${TAG//v}`, `git tag | sort -V | tail -1`), the `actions/cache`
restore/save behaviour, and a statement-level transliteration of the
notebooks' code cells, and proves or refutes the specification's claims about
them.

Notebook sources are transliterated statement by statement; single quotes in
Python source text are normalised to double quotes and f-string braces are
written with `\x7b`/`\x7d` escapes.
-/

/-! ## String machinery: GitHub Actions expression functions

GitHub's `contains(haystack, needle)` is substring containment and
`startsWith(s, p)` is prefix testing; GitHub documents both as not case
sensitive.  We implement containment over the character lists underlying
`String`, with ASCII case folding, and later prove it correct against the
mathematical infix relation `<:+:` on the folded strings. -/

/-- Does `needle` occur as a contiguous substring of `hay`?  Implementation of
the substring search underlying GitHub Actions' `contains` function. -/
def occursIn (needle : List Char) : List Char → Bool
  | [] => needle.isEmpty
  | c :: rest => needle.isPrefixOf (c :: rest) || occursIn needle rest

/-- ASCII case folding of one character: upper-case letters are mapped to
lower case. -/
def foldChar (c : Char) : Char :=
  if 'A' ≤ c && c ≤ 'Z' then Char.ofNat (c.toNat + 32) else c

/-- ASCII case folding of a string, character by character. -/
def foldCase (s : String) : String := String.mk (s.data.map foldChar)

/-- GitHub Actions expression function `contains(s, sub)` on strings.  GitHub
documents `contains` as not case sensitive, so both strings are case-folded
before the substring search. -/
def ghContains (s sub : String) : Bool :=
  occursIn (foldCase sub).data (foldCase s).data

/-- GitHub Actions expression function `startsWith(s, p)`.  GitHub's
comparison is case-insensitive; the deploy workflow applies it only to
`github.event.ref` against the literal `refs/tags`, and a git push event's
ref always begins with the literal lower-case `refs/`, on which the
distinction is unobservable, so the folding is omitted here. -/
def ghStartsWith (s p : String) : Bool := p.data.isPrefixOf s.data

/-! ## The `Examples` workflow (`name: Examples`, `on: [push]`)

Embedding of the single `build` job of the Examples workflow: its skip
condition on the head commit message, its strategy matrix, its dependency
installation script, its test invocation and its `actions/cache` step. -/

/-- The `jobs.build.if` condition of the Examples workflow:
`(! contains(github.event.head_commit.message, 'ci min')) &&
 (! contains(github.event.head_commit.message, 'ci skip'))`. -/
def examplesBuildIf (headCommitMessage : String) : Bool :=
  (!(ghContains headCommitMessage "ci min")) &&
  (!(ghContains headCommitMessage "ci skip"))

/-- `strategy.matrix.python-version` of the Examples workflow. -/
def examplesPythonVersions : List String := ["3.7"]

/-- `strategy.matrix.operating-system` of the Examples workflow. -/
def examplesOperatingSystems : List String := ["ubuntu-latest"]

/-- The matrix entries generated for the build job: the cartesian product of
the two matrix axes, as GitHub Actions expands them. -/
def examplesMatrixEntries : List (String × String) :=
  examplesPythonVersions.foldr
    (fun p acc => examplesOperatingSystems.map (fun o => (p, o)) ++ acc) []

/-- The commands of the `Install dependencies (conda)` step's `run` block, in
order (inline `#` comments dropped). -/
def installDependenciesRun : List String :=
  [ "conda install --file requirements/conda_requirements.txt"
  , "conda install --file requirements/test_requirements.txt"
  , "conda install pyamg"
  , "pip install -e ."
  , "conda install porespy" ]

/-- Position of the first occurrence of a command in the install script (the
script's length when the command is absent). -/
def cmdIdx (cmd : String) : Nat :=
  installDependenciesRun.findIdx (fun c => c == cmd)

/-- The arguments of the `Running tests` step's `pytest` invocation. -/
def pytestArgs : List String :=
  [ "--nbval"
  , "examples/"
  , "--ignore=examples/paper_recreations/Blunt et al. (2013)"
  , "--ignore=examples/paper_recreations/Wu et al. (2010)" ]

/-- The directories excluded from the test run: the values of the `--ignore=`
arguments of the pytest invocation. -/
def pytestIgnoredDirs : List String :=
  pytestArgs.filterMap (fun a =>
    if "--ignore=".data.isPrefixOf a.data
    then some (String.mk (a.data.drop "--ignore=".length))
    else none)

/-! ### The `Cache conda` step (`actions/cache@v1`)

The step caches `~/conda_pkgs_dir` under the key
`${{ runner.os }}-conda-${{ env.CACHE_NUMBER }}-${{ hashFiles('**/conda_requirements.txt') }}`
with `CACHE_NUMBER: 0`.  `actions/cache` restores the entry stored under the
key at job start and, when the key missed, saves the directory produced by the
job under that key at job end.  The cache store is the one piece of state that
survives between CI runs; we model it as an association list from keys to
saved directory contents. -/

/-- The cache key template of the `Cache conda` step. -/
def condaCacheKey (runnerOS cacheNumber reqHash : String) : String :=
  runnerOS ++ "-conda-" ++ cacheNumber ++ "-" ++ reqHash

/-- One invocation of the Examples build job, described by the inputs that
determine its cache key and by the `~/conda_pkgs_dir` contents it produces
when it has to install from scratch. -/
structure ExamplesRun where
  runnerOS : String
  reqHash : String
  producedPkgs : String
deriving DecidableEq

/-- The cache key computed for a run (`CACHE_NUMBER` is 0 in the workflow). -/
def examplesRunKey (r : ExamplesRun) : String :=
  condaCacheKey r.runnerOS "0" r.reqHash

/-- Lookup in the cache store. -/
def storeLookup (store : List (String × String)) (k : String) : Option String :=
  match store.find? (fun p => p.1 == k) with
  | some p => some p.2
  | none => none

/-- The `actions/cache` restore phase at job start: the entry stored under the
run's key, if any previous run saved one. -/
def cacheRestore (store : List (String × String)) (r : ExamplesRun) : Option String :=
  storeLookup store (examplesRunKey r)

/-- The `actions/cache` post-job save phase: on an exact-key hit nothing is
saved; on a miss the run's produced `~/conda_pkgs_dir` contents are stored
under the run's key. -/
def cacheSave (store : List (String × String)) (r : ExamplesRun) : List (String × String) :=
  match cacheRestore store r with
  | some _ => store
  | none => (examplesRunKey r, r.producedPkgs) :: store

/-! ## The deploy workflow (`name: 🐍 Deploy to PyPI`, `on: push: tags: '*'`) -/

/-- The data the deploy job's env steps work with: `github.event.ref` (the
pushed ref), `TAG` (set by `git tag | sort -V | tail -1`) and `VER` (the
`__version__` string imported from the checkout of the `release` branch). -/
structure DeployEnv where
  ref : String
  TAG : String
  VER : String

/-- The bash parameter expansion `${TAG//v}`: every occurrence of the
character `v` is removed. -/
def stripV (s : String) : String := String.mk (s.data.filter (fun c => c ≠ 'v'))

/-- The `TAG_MISMATCH` env variable set by the step
`Set env variables (for tag mismatch)`:
`"false"` when `[ "${TAG//v}" = "$VER" ]` holds, `"true"` otherwise. -/
def tagMismatch (e : DeployEnv) : String :=
  if stripV e.TAG = e.VER then "false" else "true"

/-- A step of the deploy job: its name, what it runs (its `run:` script or
`uses:` action, summarised) and its `if:` condition (steps without an `if:`
line run unconditionally). -/
structure DeployStep where
  name : String
  command : String
  cond : DeployEnv → Bool

/-- The `if:` condition of the `Publish distribution 📦 to PyPI` step:
`startsWith(github.event.ref, 'refs/tags') && contains(env.TAG_MISMATCH, 'false')`. -/
def publishIf (e : DeployEnv) : Bool :=
  ghStartsWith e.ref "refs/tags" && ghContains (tagMismatch e) "false"

/-- The steps of the deploy job, in workflow order. -/
def deploySteps : List DeployStep :=
  [ { name := "actions/checkout@v2"
    , command := "uses: actions/checkout@v2 (ref: release)"
    , cond := fun _ => true }
  , { name := "Set up Python"
    , command := "uses: actions/setup-python@v2 (python-version: 3.7)"
    , cond := fun _ => true }
  , { name := "Set env variables"
    , command := "git fetch --all --tags; set TAG from git tag | sort -V | tail -1; set VER from openpnm __version__"
    , cond := fun _ => true }
  , { name := "Set env variables (for tag mismatch)"
    , command := "compare \x7bTAG//v\x7d with VER; set TAG_MISMATCH"
    , cond := fun _ => true }
  , { name := "Install dependencies"
    , command := "python -m pip install --upgrade pip; pip install setuptools wheel twine"
    , cond := fun _ => true }
  , { name := "Build distribution 📦"
    , command := "python setup.py sdist bdist_wheel"
    , cond := fun _ => true }
  , { name := "Publish distribution 📦 to PyPI"
    , command := "uses: pypa/gh-action-pypi-publish@master"
    , cond := publishIf } ]

/-- The commands of the steps of the deploy job bearing a given name. -/
def deployStepCommand (n : String) : List String :=
  (deploySteps.filter (fun st => st.name == n)).map DeployStep.command

/-- The step names appearing only inside the comment block at the end of the
deploy workflow file: steps that are commented out (the tag-deletion logic is
noted there as unsafe: a non-conforming pushed tag would trick the job into
deleting the most recent tag). -/
def deployCommentedOutSteps : List String :=
  [ "Publish distribution 📦 to TestPyPI"
  , "Delete tag if doesn't match with version" ]

/-- GitHub Actions sequential step semantics: a step executes when its `if:`
condition holds and no earlier step failed (the implicit `success()` check);
`ok` tells whether an executed step's commands succeed.  Returns the names of
the executed steps and whether the job failed. -/
def runJob (e : DeployEnv) (ok : String → Bool) : List DeployStep → List String × Bool
  | [] => ([], false)
  | st :: rest =>
    if st.cond e then
      if ok st.name then
        ((runJob e ok rest).1.cons st.name, (runJob e ok rest).2)
      else ([st.name], true)
    else runJob e ok rest

/-- Names of the steps executed by a deploy job run. -/
def deployExecuted (e : DeployEnv) (ok : String → Bool) : List String :=
  (runJob e ok deploySteps).1

/-- Whether a deploy job run fails. -/
def deployFailed (e : DeployEnv) (ok : String → Bool) : Bool :=
  (runJob e ok deploySteps).2

/-! ### The `Set env variables` step: `TAG=$(git tag | sort -V | tail -1)`

`sort -V` is GNU version sort; we model its comparison on version-style tag
strings: maximal digit runs compare by numeric value, other characters
compare by code point, a digit run sorts before a non-digit character, and a
string that runs out first is smaller. -/

/-- Is `c` an ASCII digit? -/
def isDigitCh (c : Char) : Bool := '0' ≤ c && c ≤ '9'

/-- Numeric value of a run of digit characters. -/
def numVal (l : List Char) : Nat :=
  l.foldl (fun acc c => acc * 10 + (c.toNat - 48)) 0

/-- Fuelled version comparison implementing the `sort -V` ordering described
above; the fuel is an upper bound on the number of comparison rounds. -/
def verCmpAux : Nat → List Char → List Char → Ordering
  | 0, _, _ => Ordering.eq
  | _ + 1, [], [] => Ordering.eq
  | _ + 1, [], _ :: _ => Ordering.lt
  | _ + 1, _ :: _, [] => Ordering.gt
  | fuel + 1, a :: as, b :: bs =>
    if isDigitCh a && isDigitCh b then
      match compare (numVal ((a :: as).takeWhile isDigitCh))
                    (numVal ((b :: bs).takeWhile isDigitCh)) with
      | Ordering.eq =>
          verCmpAux fuel ((a :: as).dropWhile isDigitCh) ((b :: bs).dropWhile isDigitCh)
      | o => o
    else if isDigitCh a then Ordering.lt
    else if isDigitCh b then Ordering.gt
    else
      match compare a b with
      | Ordering.eq => verCmpAux fuel as bs
      | o => o

/-- `sort -V` comparison on tag strings. -/
def verLe (x y : String) : Bool :=
  match verCmpAux (x.data.length + y.data.length + 1) x.data y.data with
  | Ordering.gt => false
  | _ => true

/-- Insertion into a `verLe`-sorted list (ascending). -/
def insertV (x : String) : List String → List String
  | [] => [x]
  | y :: ys => if verLe x y then x :: y :: ys else y :: insertV x ys

/-- `sort -V`: sort the tag list ascending by version order. -/
def sortV : List String → List String
  | [] => []
  | x :: xs => insertV x (sortV xs)

/-- The `TAG` env variable computed by the `Set env variables` step from the
repository's tag list: `git tag | sort -V | tail -1`, the version-greatest
tag (empty when the repository has no tags). -/
def tagFromRepo (tags : List String) : String :=
  ((sortV tags).getLast?).getD ""

/-- The deploy environment produced by the env steps when the repository's
tags are `tags`, the pushed ref is `pushedRef` and `__version__` on the
`release` branch is `ver`. -/
def mkDeployEnv (tags : List String) (pushedRef ver : String) : DeployEnv :=
  { ref := pushedRef, TAG := tagFromRepo tags, VER := ver }

/-! ### The publish step's `with:` configuration -/

/-- The `with:` block of the `Publish distribution 📦 to PyPI` step. -/
structure PublishWith where
  user : String
  skipExisting : Bool

/-- The configuration the deploy workflow passes to
`pypa/gh-action-pypi-publish@master`: `user: __token__, skip_existing: true`. -/
def deployPublishWith : PublishWith :=
  { user := "__token__", skipExisting := true }

/-- Outcome of uploading one distribution file to the package index. -/
inductive UploadOutcome where
  | uploaded
  | skippedExisting
  | failed
deriving DecidableEq

/-- Upload behaviour of the external `pypa/gh-action-pypi-publish` action
(twine): a file whose name and version already exist on the index makes the
upload fail, unless `skip_existing` is set, in which case the file is skipped
and the step succeeds. -/
def uploadFile (skipExisting : Bool) (alreadyOnIndex : Bool) : UploadOutcome :=
  if alreadyOnIndex then
    if skipExisting then UploadOutcome.skippedExisting else UploadOutcome.failed
  else UploadOutcome.uploaded

/-! ## The example notebooks

Each code cell is transliterated statement by statement.  A statement is
classified as a comment, an import, an IPython magic, the `np.random.seed`
call, the `np.set_printoptions` call, a library call (tagged with whether it
draws from numpy's global random number generator), a pure assignment, a
matplotlib plotting call, or a `print` whose output nbval checks. -/

/-- One transliterated notebook statement. -/
inductive Stmt where
  | comment (text : String)
  | pyImport (text : String)
  | magic (text : String)
  | seed (n : Nat)
  | printOpts (precision : Nat)
  | call (text : String) (draws : Bool)
  | assign (text : String)
  | plot (text : String)
  | emit (text : String)
deriving DecidableEq

/-- A code cell: its statements in order. -/
structure Cell where
  stmts : List Stmt
deriving DecidableEq

/-- Is the statement a library call? -/
def isLibCall : Stmt → Bool
  | Stmt.call _ _ => true
  | _ => false

/-- Is the statement the `np.random.seed` call? -/
def isSeedStmt : Stmt → Bool
  | Stmt.seed _ => true
  | _ => false

/-- Is the statement the `np.set_printoptions` call? -/
def isPrintOptsStmt : Stmt → Bool
  | Stmt.printOpts _ => true
  | _ => false

/-- Is the statement a matplotlib plotting call? -/
def isPlotStmt : Stmt → Bool
  | Stmt.plot _ => true
  | _ => false

/-- Does the statement draw from numpy's global random number generator? -/
def drawsRng : Stmt → Bool
  | Stmt.call _ d => d
  | _ => false

/-- Does the cell produce a figure (contain a plotting call)? -/
def producesFigure (c : Cell) : Bool := c.stmts.any isPlotStmt

/-- Is the cell marked with the `# NBVAL_IGNORE_OUTPUT` comment as its first
line, excluding its outputs from nbval's regression comparison? -/
def ignoresOutput (c : Cell) : Bool :=
  match c.stmts with
  | Stmt.comment "NBVAL_IGNORE_OUTPUT" :: _ => true
  | _ => false

/-- All statements of a notebook, in execution order. -/
def nbStmts (nb : List Cell) : List Stmt := (nb.map Cell.stmts).flatten

/-- The statements of a notebook's first code cell. -/
def firstCellStmts (nb : List Cell) : List Stmt :=
  match nb with
  | [] => []
  | c :: _ => c.stmts

/-- Index of the first statement satisfying `p` (the list's length when there
is none). -/
def firstIdx (p : Stmt → Bool) (l : List Stmt) : Nat := l.findIdx p

/-- Rendering of the C9 claim's setup property on a cell's statements: the
cell contains the seed call and the printoptions call and both precede every
library call. -/
def seedAndPrecisionBeforeLibCalls (l : List Stmt) : Bool :=
  decide (firstIdx isSeedStmt l < l.length) &&
  decide (firstIdx isPrintOptsStmt l < l.length) &&
  decide (firstIdx isSeedStmt l < firstIdx isLibCall l) &&
  decide (firstIdx isPrintOptsStmt l < firstIdx isLibCall l)

/-- The seed part alone: the cell contains the seed call and it precedes
every library call. -/
def seedBeforeLibCalls (l : List Stmt) : Bool :=
  decide (firstIdx isSeedStmt l < l.length) &&
  decide (firstIdx isSeedStmt l < firstIdx isLibCall l)

/-! ### Notebook execution model

Execution threads the state of numpy's global random number generator
(abstracted as a `Nat`) through the statements.  `np.random.seed(n)`
reinitialises the state from `n`; a drawing library call advances it; a
checked `print` emits an output that may depend on everything computed so
far, summarised by the current state.  The generator's internals are opaque,
so the model is parametric in them. -/

/-- Opaque description of the random number generator's internals. -/
structure RngModel where
  init : Nat → Nat
  next : Nat → Nat

/-- State left by a statement. -/
def stmtStep (M : RngModel) (σ : Nat) : Stmt → Nat
  | Stmt.seed n => M.init n
  | Stmt.call _ true => M.next σ
  | _ => σ

/-- Checked outputs produced by a statement at state `σ`. -/
def stmtOut (σ : Nat) : Stmt → List (String × Nat)
  | Stmt.emit t => [(t, σ)]
  | _ => []

/-- The checked printed outputs of running the statements from initial
generator state `σ`. -/
def runStmts (M : RngModel) : Nat → List Stmt → List (String × Nat)
  | _, [] => []
  | σ, s :: rest => stmtOut σ s ++ runStmts M (stmtStep M σ s) rest

/-- Every checked output and every randomness-drawing call comes at or after
a seed call: scanning from the front, a seed statement is reached before any
`emit` or drawing call. -/
def seededBeforeUse : List Stmt → Bool
  | [] => true
  | Stmt.seed _ :: _ => true
  | Stmt.emit _ :: _ => false
  | Stmt.call _ d :: rest => !d && seededBeforeUse rest
  | Stmt.comment _ :: rest => seededBeforeUse rest
  | Stmt.pyImport _ :: rest => seededBeforeUse rest
  | Stmt.magic _ :: rest => seededBeforeUse rest
  | Stmt.printOpts _ :: rest => seededBeforeUse rest
  | Stmt.assign _ :: rest => seededBeforeUse rest
  | Stmt.plot _ :: rest => seededBeforeUse rest

/-! ### The capillary pressure notebook (`Capillary Pressure Curves.ipynb`,
first document) -/

/-- Code cells of the capillary pressure notebook. -/
def capillaryNotebook : List Cell :=
  [ ⟨[ Stmt.pyImport "import numpy as np"
     , Stmt.pyImport "import openpnm as op"
     , Stmt.seed 10
     , Stmt.call "ws = op.Workspace()" false
     , Stmt.call "ws.settings[\"loglevel\"] = 40" false
     , Stmt.printOpts 5 ]⟩
  , ⟨[ Stmt.call "pn = op.network.Cubic(shape=[20, 20, 20], spacing=0.00005)" false ]⟩
  , ⟨[ Stmt.call "geo = op.geometry.StickAndBall(network=pn, pores=pn.Ps, throats=pn.Ts)" true ]⟩
  , ⟨[ Stmt.call "hg = op.phases.Mercury(network=pn, name=\"mercury\")" false ]⟩
  , ⟨[ Stmt.call "phys = op.physics.GenericPhysics(network=pn, phase=hg, geometry=geo)" false
     , Stmt.call "phys.add_model(propname=\"throat.entry_pressure\", model=op.models.physics.capillary_pressure.washburn)" false ]⟩
  , ⟨[ Stmt.call "mip = op.algorithms.Porosimetry(network=pn, phase=hg)" false
     , Stmt.call "mip.set_inlets(pores=pn.pores(\"left\"))" false
     , Stmt.call "mip.run()" false ]⟩
  , ⟨[ Stmt.comment "NBVAL_IGNORE_OUTPUT"
     , Stmt.plot "fig = mip.plot_intrusion_curve()" ]⟩
  , ⟨[ Stmt.call "Pc, Snwp = mip.get_intrusion_data()" false
     , Stmt.emit "print(Pc, Snwp)" ]⟩
  , ⟨[ Stmt.comment "NBVAL_IGNORE_OUTPUT"
     , Stmt.pyImport "import matplotlib.pyplot as plt"
     , Stmt.plot "fig = plt.plot(Pc, Snwp, \"r*-\")" ]⟩ ]

/-! ### The thermal conduction notebook (`Capillary Pressure Curves.ipynb`,
second document) -/

/-- Code cells of the thermal conduction notebook. -/
def thermalNotebook : List Cell :=
  [ ⟨[ Stmt.magic "%matplotlib inline"
     , Stmt.pyImport "import numpy as np"
     , Stmt.pyImport "import scipy as sp"
     , Stmt.pyImport "import openpnm as op"
     , Stmt.seed 10
     , Stmt.call "ws = op.Workspace()" false
     , Stmt.call "ws.settings[\"loglevel\"] = 40" false
     , Stmt.printOpts 5 ]⟩
  , ⟨[ Stmt.assign "divs = [10, 50]"
     , Stmt.assign "Lc = 0.1"
     , Stmt.call "pn = op.network.Cubic(shape=divs, spacing=Lc)" false
     , Stmt.call "pn.add_boundary_pores([\"left\", \"right\", \"front\", \"back\"])" false ]⟩
  , ⟨[ Stmt.comment "Create Phase object and associate with a Physics object"
     , Stmt.call "Cu = op.phases.GenericPhase(network=pn)" false ]⟩
  , ⟨[ Stmt.comment "Add a unit conductance to all connections"
     , Stmt.call "Cu[\"throat.thermal_conductance\"] = 1" false
     , Stmt.comment "Overwrite boundary conductances since those connections are half as long"
     , Stmt.call "Ps = pn.pores(\"*boundary\")" false
     , Stmt.call "Ts = pn.find_neighbor_throats(pores=Ps)" false
     , Stmt.call "Cu[\"throat.thermal_conductance\"][Ts] = 2" false ]⟩
  , ⟨[ Stmt.comment "Setup Algorithm object"
     , Stmt.call "alg = op.algorithms.FourierConduction(network=pn)" false
     , Stmt.call "alg.setup(phase=Cu)" false
     , Stmt.call "inlets = pn.pores(\"back_boundary\")" false
     , Stmt.call "outlets = pn.pores([\"front_boundary\", \"left_boundary\", \"right_boundary\"])" false
     , Stmt.assign "T_in = 30*np.sin(np.pi*pn[\"pore.coords\"][inlets, 1]/5)+50"
     , Stmt.call "alg.set_value_BC(values=T_in, pores=inlets)" false
     , Stmt.call "alg.set_value_BC(values=50, pores=outlets)" false
     , Stmt.call "alg.run()" false ]⟩
  , ⟨[ Stmt.comment "NBVAL_IGNORE_OUTPUT"
     , Stmt.pyImport "import matplotlib.pyplot as plt"
     , Stmt.call "sim = alg[\"pore.temperature\"][pn.pores(\"internal\")]" false
     , Stmt.assign "temp_map = np.reshape(a=sim, newshape=divs)"
     , Stmt.plot "plt.subplots(1, 1, figsize=(10, 5))"
     , Stmt.plot "plt.imshow(temp_map, cmap=plt.cm.plasma);"
     , Stmt.plot "plt.colorbar();" ]⟩
  , ⟨[ Stmt.emit "print(f\"T_average (numerical): \x7balg[\"pore.temperature\"][pn.pores(\"internal\")].mean():.5f\x7d\")" ]⟩
  , ⟨[ Stmt.comment "Calculate analytical solution over the same domain spacing"
     , Stmt.assign "X = pn[\"pore.coords\"][:, 0]"
     , Stmt.assign "Y = pn[\"pore.coords\"][:, 1]"
     , Stmt.assign "soln = 30*np.sinh(np.pi*X/5)/np.sinh(np.pi/5)*np.sin(np.pi*Y/5) + 50"
     , Stmt.call "soln = soln[pn.pores(\"internal\")]" false
     , Stmt.assign "soln = np.reshape(soln, (divs[0], divs[1]))" ]⟩
  , ⟨[ Stmt.comment "NBVAL_IGNORE_OUTPUT"
     , Stmt.plot "plt.subplots(1, 1, figsize=(10, 5))"
     , Stmt.plot "plt.imshow(soln, cmap=plt.cm.plasma);"
     , Stmt.plot "plt.colorbar();" ]⟩
  , ⟨[ Stmt.emit "print(f\"T_average (analytical): \x7bsoln.mean():.5f\x7d\")" ]⟩
  , ⟨[ Stmt.comment "NBVAL_IGNORE_OUTPUT"
     , Stmt.assign "diff = soln - temp_map"
     , Stmt.plot "plt.subplots(1, 1, figsize=(10, 5))"
     , Stmt.plot "plt.imshow(diff, cmap=plt.cm.plasma);"
     , Stmt.plot "plt.colorbar();" ]⟩
  , ⟨[ Stmt.emit "print(f\"Minimum error: \x7bdiff.min():.5f\x7d, maximum error: \x7bdiff.max():.5f\x7d\")" ]⟩ ]

/-! ### The Fickian diffusion notebook (`Fickian Diffusion.ipynb`) -/

/-- Code cells of the Fickian diffusion notebook. -/
def fickianNotebook : List Cell :=
  [ ⟨[ Stmt.pyImport "import numpy as np"
     , Stmt.pyImport "import openpnm as op"
     , Stmt.magic "%matplotlib inline"
     , Stmt.seed 10
     , Stmt.call "ws = op.Workspace()" false
     , Stmt.call "ws.settings[\"loglevel\"] = 40" false
     , Stmt.printOpts 5 ]⟩
  , ⟨[ Stmt.call "net = op.network.Cubic(shape=[1, 10, 10], spacing=1e-5)" false ]⟩
  , ⟨[ Stmt.call "geom = op.geometry.StickAndBall(network=net, pores=net.Ps, throats=net.Ts)" true ]⟩
  , ⟨[ Stmt.call "air = op.phases.Air(network=net)" false ]⟩
  , ⟨[ Stmt.call "phys_air = op.physics.Standard(network=net, phase=air, geometry=geom)" false ]⟩
  , ⟨[ Stmt.call "fd = op.algorithms.FickianDiffusion(network=net, phase=air)" false ]⟩
  , ⟨[ Stmt.call "inlet = net.pores(\"left\")" false
     , Stmt.call "outlet = net.pores(\"right\")" false
     , Stmt.call "fd.set_value_BC(pores=inlet, values=1.0)" false
     , Stmt.call "fd.set_value_BC(pores=outlet, values=0.0)" false ]⟩
  , ⟨[ Stmt.call "fd.run()" false ]⟩
  , ⟨[ Stmt.emit "print(fd.settings)" ]⟩
  , ⟨[ Stmt.call "c = fd[\"pore.concentration\"]" false
     , Stmt.emit "print(c)" ]⟩
  , ⟨[ Stmt.emit "print(\"Network shape:\", net._shape)"
     , Stmt.assign "c2d = c.reshape((net._shape))" ]⟩
  , ⟨[ Stmt.comment "NBVAL_IGNORE_OUTPUT"
     , Stmt.pyImport "import matplotlib.pyplot as plt"
     , Stmt.plot "plt.imshow(c2d[0,:,:]);"
     , Stmt.plot "plt.title(\"Concentration (mol/m$^3$)\")"
     , Stmt.plot "plt.colorbar()" ]⟩
  , ⟨[ Stmt.assign "rate_inlet = fd.rate(pores=inlet)[0]"
     , Stmt.emit "print(f\"Mass flow rate from inlet: \x7brate_inlet:.5e\x7d mol/s\")" ]⟩ ]

/-! ### The thermal notebook's error computation -/

/-- The elementwise difference computed by the thermal conduction notebook's
statement `diff = soln - temp_map`: the analytical solution minus the
simulated temperature map. -/
def thermalDiff (soln tempMap : Int) : Int := soln - tempMap

/-- The difference as the claim words it (`soln` subtracted FROM the
simulated temperature map): the simulated map minus the analytical solution.
Stated only for comparison with `thermalDiff`. -/
def claimDiff (soln tempMap : Int) : Int := tempMap - soln

/-! ### Concrete data for witnesses -/

/-- Oracle under which every step's commands succeed. -/
def allOk : String → Bool := fun _ => true

/-- A deploy environment for a pushed tag matching the release version. -/
def envTagMatch : DeployEnv :=
  { ref := "refs/tags/v1.0.0", TAG := "v1.0.0", VER := "1.0.0" }

/-- An Examples run on Linux with requirements hash `h1`. -/
def runA : ExamplesRun :=
  { runnerOS := "Linux", reqHash := "h1", producedPkgs := "pkgs-from-runA" }

/-- A later Examples run with the same cache key inputs as `runA`. -/
def runB : ExamplesRun :=
  { runnerOS := "Linux", reqHash := "h1", producedPkgs := "pkgs-from-runB" }

/-- An Examples run with a different requirements hash, hence another key. -/
def runC : ExamplesRun :=
  { runnerOS := "Linux", reqHash := "h2", producedPkgs := "pkgs-from-runC" }

/-! ## Helper lemmas -/

/-- Boolean prefix test agrees with the `<+:` relation. -/
theorem prefixOf_eq_true_iff (n h : List Char) : n.isPrefixOf h = true ↔ n <+: h :=
  List.isPrefixOf_iff_prefix

/-- `occursIn` agrees with the mathematical infix relation. -/
theorem occursIn_eq_true_iff (n : List Char) :
    ∀ h : List Char, occursIn n h = true ↔ n <:+: h := by
  intro h
  induction h with
  | nil =>
    simp only [occursIn, List.isEmpty_iff, List.infix_nil]
  | cons c rest ih =>
    simp only [occursIn, Bool.or_eq_true, prefixOf_eq_true_iff, ih,
      List.infix_cons_iff]

/-- `ghContains` decides substring containment of the case-folded strings. -/
theorem ghContains_eq_true_iff (s sub : String) :
    ghContains s sub = true ↔ (foldCase sub).data <:+: (foldCase s).data :=
  occursIn_eq_true_iff (foldCase sub).data (foldCase s).data

/-- `ghStartsWith` decides the prefix relation. -/
theorem ghStartsWith_eq_true_iff (s p : String) :
    ghStartsWith s p = true ↔ p.data <+: s.data :=
  prefixOf_eq_true_iff p.data s.data

/-! ## Claim theorems -/

/-- The `contains(env.TAG_MISMATCH, 'false')` test of the publish gate holds
exactly when the tag with its `v`s removed equals the version string. -/
theorem tagMismatch_contains_false_iff (e : DeployEnv) :
    ghContains (tagMismatch e) "false" = true ↔ stripV e.TAG = e.VER := by
  unfold tagMismatch
  by_cases h : stripV e.TAG = e.VER
  · rw [if_pos h]
    exact iff_of_true (by decide) h
  · rw [if_neg h]
    exact iff_of_false (by decide) h

/-- Every step a deploy job run executes is one of the steps of the job. -/
theorem runJob_executed_subset (e : DeployEnv) (ok : String → Bool) :
    ∀ steps : List DeployStep, ∀ n, n ∈ (runJob e ok steps).1 →
      n ∈ steps.map DeployStep.name := by
  intro steps
  induction steps with
  | nil => intro n h; simp [runJob] at h
  | cons st rest ih =>
    intro n h
    simp only [runJob] at h
    by_cases hc : st.cond e
    · rw [if_pos hc] at h
      by_cases ho : ok st.name
      · rw [if_pos ho] at h
        rcases List.mem_cons.mp h with h1 | h2
        · simp [h1]
        · exact List.mem_cons_of_mem _ (ih n h2)
      · rw [if_neg ho] at h
        rcases List.mem_cons.mp h with h1 | h2
        · simp [h1]
        · cases h2
    · rw [if_neg hc] at h
      exact List.mem_cons_of_mem _ (ih n h)

/-- Running statements whose checked outputs and random draws all come after
a seed call produces the same checked outputs from any initial generator
state. -/
theorem runStmts_seeded_independent (M : RngModel) :
    ∀ l : List Stmt, seededBeforeUse l = true →
      ∀ σ₁ σ₂ : Nat, runStmts M σ₁ l = runStmts M σ₂ l := by
  intro l
  induction l with
  | nil => intro _ σ₁ σ₂; rfl
  | cons s rest ih =>
    intro h σ₁ σ₂
    cases s with
    | seed n => simp [runStmts, stmtOut, stmtStep]
    | emit t => exact absurd h (by simp [seededBeforeUse])
    | call t d =>
      cases d with
      | true => exact absurd h (by simp [seededBeforeUse])
      | false =>
        have h' : seededBeforeUse rest = true := by
          simpa [seededBeforeUse] using h
        simpa [runStmts, stmtOut, stmtStep] using ih h' σ₁ σ₂
    | comment t =>
      have h' : seededBeforeUse rest = true := by simpa [seededBeforeUse] using h
      simpa [runStmts, stmtOut, stmtStep] using ih h' σ₁ σ₂
    | pyImport t =>
      have h' : seededBeforeUse rest = true := by simpa [seededBeforeUse] using h
      simpa [runStmts, stmtOut, stmtStep] using ih h' σ₁ σ₂
    | magic t =>
      have h' : seededBeforeUse rest = true := by simpa [seededBeforeUse] using h
      simpa [runStmts, stmtOut, stmtStep] using ih h' σ₁ σ₂
    | printOpts p =>
      have h' : seededBeforeUse rest = true := by simpa [seededBeforeUse] using h
      simpa [runStmts, stmtOut, stmtStep] using ih h' σ₁ σ₂
    | assign t =>
      have h' : seededBeforeUse rest = true := by simpa [seededBeforeUse] using h
      simpa [runStmts, stmtOut, stmtStep] using ih h' σ₁ σ₂
    | plot t =>
      have h' : seededBeforeUse rest = true := by simpa [seededBeforeUse] using h
      simpa [runStmts, stmtOut, stmtStep] using ih h' σ₁ σ₂

/-! ## Claim theorems -/

/-- C2 counterexample: GitHub's `contains` is not case sensitive, so the head
commit message `deploy fix CI SKIP` makes the build job's `if:` condition
false — the job is skipped — although the message contains neither `ci min`
nor `ci skip` as a (case-sensitive) substring, against the claimed
biconditional. -/
theorem ci_marker_case_counterexample :
    examplesBuildIf "deploy fix CI SKIP" = false ∧
    ¬ ("ci min".data <:+: "deploy fix CI SKIP".data) ∧
    ¬ ("ci skip".data <:+: "deploy fix CI SKIP".data) := by
  refine ⟨by decide, by decide, by decide⟩

/-- C2 (amended): for every push event, the Examples build job runs exactly
when the head commit message contains neither `ci min` nor `ci skip` under
GitHub's case-insensitive comparison — that is, neither marker occurs as a
substring of the case-folded message. -/
theorem examples_build_runs_iff_no_skip_marker (msg : String) :
    examplesBuildIf msg = true ↔
      ¬ ("ci min".data <:+: (foldCase msg).data) ∧
      ¬ ("ci skip".data <:+: (foldCase msg).data) := by
  have h1 : foldCase "ci min" = "ci min" := by decide
  have h2 : foldCase "ci skip" = "ci skip" := by decide
  simp only [examplesBuildIf, Bool.and_eq_true, Bool.not_eq_true',
    ← Bool.not_eq_true]
  simp only [ghContains_eq_true_iff, h1, h2]

/-- C1: every run of the deploy job with succeeding commands executes the
build step (whose command is `python setup.py sdist bdist_wheel`); the
publish step executes exactly when the pushed ref starts with `refs/tags` and
the tag, with `v` removed, equals the `__version__` string; and the run does
not fail — in particular, a failed tag/version check only skips publication. -/
theorem deploy_publish_gate (e : DeployEnv) (ok : String → Bool)
    (hok : ∀ n, ok n = true) :
    deployStepCommand "Build distribution 📦" = ["python setup.py sdist bdist_wheel"] ∧
    "Build distribution 📦" ∈ deployExecuted e ok ∧
    ("Publish distribution 📦 to PyPI" ∈ deployExecuted e ok ↔
      ("refs/tags".data <+: e.ref.data ∧ stripV e.TAG = e.VER)) ∧
    deployFailed e ok = false := by
  have hpub : publishIf e = true ↔
      ("refs/tags".data <+: e.ref.data ∧ stripV e.TAG = e.VER) := by
    simp only [publishIf, Bool.and_eq_true, ghStartsWith_eq_true_iff,
      tagMismatch_contains_false_iff]
  refine ⟨by decide, ?_, ?_, ?_⟩ <;>
    by_cases hp : publishIf e = true <;>
    simp [deployExecuted, deployFailed, deploySteps, runJob, hok, hp, ← hpub]

/-- Witness for C1 at a pushed tag that matches the release version. -/
theorem deploy_publish_gate_witness :
    deployStepCommand "Build distribution 📦" = ["python setup.py sdist bdist_wheel"] ∧
    "Build distribution 📦" ∈ deployExecuted envTagMatch allOk ∧
    ("Publish distribution 📦 to PyPI" ∈ deployExecuted envTagMatch allOk ↔
      ("refs/tags".data <+: envTagMatch.ref.data ∧
        stripV envTagMatch.TAG = envTagMatch.VER)) ∧
    deployFailed envTagMatch allOk = false :=
  deploy_publish_gate envTagMatch allOk (fun _ => rfl)

/-- C3: whatever the values of the ref, `TAG`, `VER` (hence `TAG_MISMATCH`)
and the step outcomes, no executed step of the deploy job is the tag-deletion
step: that step is not among the job's steps at all, existing only in the
commented-out block of the workflow file. -/
theorem deploy_never_deletes_tags (e : DeployEnv) (ok : String → Bool) :
    (deployExecuted e ok).contains "Delete tag if doesn't match with version" = false ∧
    (deploySteps.map DeployStep.name).contains "Delete tag if doesn't match with version" = false ∧
    "Delete tag if doesn't match with version" ∈ deployCommentedOutSteps := by
  refine ⟨?_, by decide, by decide⟩
  rw [Bool.eq_false_iff]
  intro hc
  have hmem : "Delete tag if doesn't match with version" ∈ deployExecuted e ok :=
    List.elem_iff.mp hc
  have hall := runJob_executed_subset e ok deploySteps _ hmem
  exact absurd hall (by decide)

/-- C4: the Examples build job's matrix has Python 3.7 on ubuntu-latest as
its only entry, the package is pip-installed in editable mode after the conda
installs from the two requirements files, and the tests run `pytest --nbval`
over `examples/` with exactly the two paper-recreation directories excluded. -/
theorem examples_ci_environment :
    examplesMatrixEntries = [("3.7", "ubuntu-latest")] ∧
    "pip install -e ." ∈ installDependenciesRun ∧
    cmdIdx "conda install --file requirements/conda_requirements.txt" <
      cmdIdx "pip install -e ." ∧
    cmdIdx "conda install --file requirements/test_requirements.txt" <
      cmdIdx "pip install -e ." ∧
    pytestArgs.take 2 = ["--nbval", "examples/"] ∧
    pytestIgnoredDirs =
      [ "examples/paper_recreations/Blunt et al. (2013)"
      , "examples/paper_recreations/Wu et al. (2010)" ] := by
  refine ⟨by decide, by decide, by decide, by decide, by decide, by decide⟩

/-- C5 counterexample: the thermal conduction notebook computes its error as
`diff = soln - temp_map` — the analytical solution minus the simulated
temperature map — whereas subtracting `soln` FROM the simulated temperature
map, as the claim words it, gives the opposite sign: at `soln = 1`,
`temp_map = 0` the two differ. -/
theorem thermal_diff_direction_counterexample :
    Stmt.assign "diff = soln - temp_map" ∈ nbStmts thermalNotebook ∧
    thermalDiff 1 0 = 1 ∧ claimDiff 1 0 = -1 ∧
    decide (thermalDiff 1 0 = claimDiff 1 0) = false := by
  refine ⟨by decide, by decide, by decide, by decide⟩

/-- C5 (amended): the thermal conduction notebook computes
`soln = 30*np.sinh(np.pi*X/5)/np.sinh(np.pi/5)*np.sin(np.pi*Y/5) + 50`,
restricts it to the internal pores, subtracts the simulated temperature map
from it (`diff = soln - temp_map`), and reports the minimum and maximum of
that difference in a cell whose printed output nbval checks. -/
theorem thermal_notebook_analytic_comparison :
    Stmt.assign "soln = 30*np.sinh(np.pi*X/5)/np.sinh(np.pi/5)*np.sin(np.pi*Y/5) + 50" ∈
      nbStmts thermalNotebook ∧
    Stmt.call "soln = soln[pn.pores(\"internal\")]" false ∈ nbStmts thermalNotebook ∧
    Stmt.assign "diff = soln - temp_map" ∈ nbStmts thermalNotebook ∧
    (thermalNotebook.any (fun c =>
      c.stmts.contains
        (Stmt.emit "print(f\"Minimum error: \x7bdiff.min():.5f\x7d, maximum error: \x7bdiff.max():.5f\x7d\")") &&
      !(ignoresOutput c))) = true ∧
    (∀ s t : Int, thermalDiff s t = s - t) := by
  refine ⟨by decide, by decide, by decide, by decide, fun s t => rfl⟩

/-- C6 counterexample: with the `Cache conda` step, state written by one CI
run is read by a later run: starting from an empty cache store, run `runA`
saves its `~/conda_pkgs_dir` under its key, and the later run `runB` (same
runner OS and requirements hash) restores exactly that directory, which no
run observes from the empty store. -/
theorem cache_shared_state_counterexample :
    cacheRestore (cacheSave [] runA) runB = some "pkgs-from-runA" ∧
    cacheRestore [] runB = none ∧
    decide (cacheRestore (cacheSave [] runA) runB = cacheRestore [] runB) = false := by
  refine ⟨by decide, by decide, by decide⟩

/-- C6 (amended): CI job invocations share mutable state only through the
`actions/cache` store of `~/conda_pkgs_dir`: a run whose cache key differs
from an earlier run's key is unaffected by it — its restore result is the
same as if the earlier run had not happened. -/
theorem runs_with_distinct_keys_do_not_interact
    (store : List (String × String)) (r₁ r₂ : ExamplesRun)
    (h : examplesRunKey r₁ ≠ examplesRunKey r₂) :
    cacheRestore (cacheSave store r₁) r₂ = cacheRestore store r₂ := by
  unfold cacheSave
  cases hr : cacheRestore store r₁ with
  | some v => rfl
  | none =>
    show storeLookup ((examplesRunKey r₁, r₁.producedPkgs) :: store) (examplesRunKey r₂) = _
    unfold storeLookup
    rw [List.find?_cons_of_neg]
    · rfl
    · intro hb
      exact h (by simpa using hb)

/-- Witness for C6's amended theorem: a run with requirements hash `h2` is
unaffected by an earlier run with hash `h1`. -/
theorem runs_with_distinct_keys_do_not_interact_witness :
    examplesRunKey runA ≠ examplesRunKey runC ∧
    cacheRestore (cacheSave [] runA) runC = cacheRestore [] runC :=
  ⟨by decide, runs_with_distinct_keys_do_not_interact [] runA runC (by decide)⟩

/-- C7: the publish gate tests the version-greatest repository tag — `git tag
| sort -V | tail -1` with its `v`s removed — against `__version__` from the
`release` checkout, not the pushed tag; concretely, pushing `v1.0` while
`v2.0` exists makes the gate decide on `v2.0`, so publication is refused even
though the pushed tag matches the version. -/
theorem deploy_gate_checks_version_newest_tag :
    (∀ tags : List String, ∀ pushedRef ver : String,
      publishIf (mkDeployEnv tags pushedRef ver) = true ↔
        ("refs/tags".data <+: pushedRef.data ∧ stripV (tagFromRepo tags) = ver)) ∧
    (∃ tags : List String, ∃ pushedTag : String,
      pushedTag ∈ tags ∧ tagFromRepo tags ≠ pushedTag ∧
      stripV pushedTag = "1.0" ∧
      publishIf (mkDeployEnv tags ("refs/tags/" ++ pushedTag) "1.0") = false) := by
  constructor
  · intro tags pushedRef ver
    simp only [publishIf, Bool.and_eq_true, ghStartsWith_eq_true_iff,
      tagMismatch_contains_false_iff, mkDeployEnv]
  · exact ⟨["v2.0", "v1.0"], "v1.0", by decide, by decide, by decide, by decide⟩

/-- C8: the publish step passes `skip_existing: true` to the publish action,
so a distribution file whose version already exists on the index is skipped
(and a fresh one uploaded) — the upload never fails on an existing file. -/
theorem publish_skip_existing_never_fails :
    deployPublishWith.skipExisting = true ∧
    uploadFile deployPublishWith.skipExisting true = UploadOutcome.skippedExisting ∧
    (∀ alreadyOnIndex : Bool,
      uploadFile deployPublishWith.skipExisting alreadyOnIndex =
        (if alreadyOnIndex then UploadOutcome.skippedExisting
         else UploadOutcome.uploaded)) := by
  refine ⟨rfl, rfl, ?_⟩
  intro b
  cases b <;> rfl

/-- C9 counterexample: the claim's setup property — seed AND print precision
both fixed before any library call — fails on the Fickian diffusion
notebook's first code cell, where `np.set_printoptions(precision=5)` comes
after the `ws = op.Workspace()` library call. -/
theorem precision_set_after_library_call :
    seedAndPrecisionBeforeLibCalls (firstCellStmts fickianNotebook) = false ∧
    Stmt.call "ws = op.Workspace()" false ∈ firstCellStmts fickianNotebook ∧
    firstIdx isLibCall (firstCellStmts fickianNotebook) <
      firstIdx isPrintOptsStmt (firstCellStmts fickianNotebook) := by
  refine ⟨by decide, by decide, by decide⟩

/-- C9 (amended): every notebook's first code cell calls
`np.random.seed(10)` before any library call and contains
`np.set_printoptions(precision=5)` (after the `Workspace` is created); every
figure-producing cell is marked `# NBVAL_IGNORE_OUTPUT`; and, since every
checked print and every random draw follows the seed call, the checked
printed outputs of a notebook run do not depend on the initial state of the
random number generator — two executions print identically, with only the
figures excluded from comparison. -/
theorem notebooks_seeded_and_figures_ignored :
    (Stmt.seed 10 ∈ firstCellStmts capillaryNotebook ∧
     Stmt.seed 10 ∈ firstCellStmts thermalNotebook ∧
     Stmt.seed 10 ∈ firstCellStmts fickianNotebook) ∧
    (seedBeforeLibCalls (firstCellStmts capillaryNotebook) = true ∧
     seedBeforeLibCalls (firstCellStmts thermalNotebook) = true ∧
     seedBeforeLibCalls (firstCellStmts fickianNotebook) = true) ∧
    (Stmt.printOpts 5 ∈ firstCellStmts capillaryNotebook ∧
     Stmt.printOpts 5 ∈ firstCellStmts thermalNotebook ∧
     Stmt.printOpts 5 ∈ firstCellStmts fickianNotebook) ∧
    (capillaryNotebook.all (fun c => !(producesFigure c) || ignoresOutput c) = true ∧
     thermalNotebook.all (fun c => !(producesFigure c) || ignoresOutput c) = true ∧
     fickianNotebook.all (fun c => !(producesFigure c) || ignoresOutput c) = true) ∧
    (∀ M : RngModel, ∀ σ₁ σ₂ : Nat,
      runStmts M σ₁ (nbStmts capillaryNotebook) = runStmts M σ₂ (nbStmts capillaryNotebook) ∧
      runStmts M σ₁ (nbStmts thermalNotebook) = runStmts M σ₂ (nbStmts thermalNotebook) ∧
      runStmts M σ₁ (nbStmts fickianNotebook) = runStmts M σ₂ (nbStmts fickianNotebook)) := by
  refine ⟨⟨by decide, by decide, by decide⟩,
         ⟨by decide, by decide, by decide⟩,
         ⟨by decide, by decide, by decide⟩,
         ⟨by decide, by decide, by decide⟩, ?_⟩
  intro M σ₁ σ₂
  exact ⟨runStmts_seeded_independent M _ (by decide) σ₁ σ₂,
         runStmts_seeded_independent M _ (by decide) σ₁ σ₂,
         runStmts_seeded_independent M _ (by decide) σ₁ σ₂⟩
